import Mathlib

/-!
Verification development for the SQL sandbox validator service
(`src/validator/validator.py`).

The Python module exposes a single endpoint `validate(payload)`:

* it reads `payload["sql"]` and `payload["seed_sql"]` (both Python `str`),
* trims surrounding whitespace from the query, strips one trailing `;`
  (re-trimming afterwards, `sql[:-1].strip()`),
* rejects the query with the fixed verdict
  `\x7b"verdict": "error", "message": "forbidden keywords"\x7d`
  when the case-insensitive regex `(INSERT|UPDATE|DELETE|ATTACH|PRAGMA|DROP|ALTER)`
  finds a match anywhere in the remaining text,
* otherwise opens a fresh in-memory sqlite connection
  (`sqlite3.connect(":memory:", timeout=1)`), runs
  `cur.executescript(seed_sql)`, `cur.execute(sql)`, `cur.fetchmany(200)`
  inside a `try` block whose `except` converts any exception into an
  error verdict and whose `finally` closes the connection.

Python strings are modelled as `List Char` (a `str` is a sequence of code
points).  The sqlite engine is a black box to this module, so it is
modelled as a record of operations (`Engine`): each operation either
returns normally (`PyResult.ok`), raises an exception carrying a message
(`PyResult.exn`), or never returns (`PyResult.hang`).  `validate` is
transcribed over such an engine, and additionally produces the trace of
engine calls it performed, so that statements such as "the sandbox is
never instantiated for rejected input" and "the connection is closed on
every exit path" can be stated about the code rather than read off a type.

Notes on fidelity:
* `conn.cursor()` on a freshly opened connection does not raise
  synchronously in CPython's sqlite3 binding; connection acquisition and
  cursor creation are modelled as the single `connect` step.
* `Connection.close()` on an in-memory connection releases the database
  and does not raise synchronously here; it is modelled as infallible
  (its invocation is recorded in the trace).
* The `timeout=1` argument of `sqlite3.connect` is sqlite's busy/lock-wait
  timeout (how long to wait on a locked database before raising), not an
  execution deadline; a private `:memory:` database is never contended, so
  the parameter has no observable effect and the model keeps only its
  value (`busyTimeoutSeconds`) for reference.
* Asynchronous exceptions (KeyboardInterrupt, MemoryError) are outside the
  model, as usual for a shallow embedding.
-/

/-- Whitespace characters removed by Python `str.strip()` (ASCII range;
the queries of interest are ASCII). -/
def isPyWs (c : Char) : Bool :=
  c == ' ' || c == '\t' || c == '\n' || c == '\r' || c == '\x0b' || c == '\x0c'

/-- Python `s.strip()`: remove leading and trailing whitespace. -/
def pyStrip (l : List Char) : List Char :=
  ((l.dropWhile isPyWs).reverse.dropWhile isPyWs).reverse

/-- Python `s.endswith(";")`. -/
def endsSemi (l : List Char) : Bool :=
  l.getLast? == some ';'

/-- The admission preprocessing of `validate`:
`sql = payload.get("sql", "").strip()` followed by
`if sql.endswith(";"): sql = sql[:-1].strip()`. -/
def preprocess (sql : List Char) : List Char :=
  let s := pyStrip sql
  if endsSemi s then pyStrip s.dropLast else s

/-- `needle` is a prefix of `hay`. -/
def leadsWith : List Char → List Char → Bool
  | [], _ => true
  | _ :: _, [] => false
  | a :: as, b :: bs => a == b && leadsWith as bs

/-- `needle` occurs as a contiguous substring of `hay`. -/
def occursIn (needle : List Char) : List Char → Bool
  | [] => needle.isEmpty
  | c :: t => leadsWith needle (c :: t) || occursIn needle t

/-- ASCII lowercasing of a code-point sequence. -/
def lowerAscii (l : List Char) : List Char :=
  l.map Char.toLower

/-- The denylist of the compiled regex
`FORBIDDEN = re.compile(r"(INSERT|UPDATE|DELETE|ATTACH|PRAGMA|DROP|ALTER)", re.I)`. -/
def FORBIDDEN : List (List Char) :=
  [("INSERT").toList, ("UPDATE").toList, ("DELETE").toList, ("ATTACH").toList,
   ("PRAGMA").toList, ("DROP").toList, ("ALTER").toList]

/-- `FORBIDDEN.search(sql)` succeeds: some denylisted keyword occurs as a
substring of the text, ignoring letter case (the keywords are ASCII
letters, so `re.I` matching coincides with matching after ASCII
lowercasing of both sides). -/
def hasForbidden (l : List Char) : Bool :=
  FORBIDDEN.any (fun k => occursIn (lowerAscii k) (lowerAscii l))

/-- Scalar values a sqlite row cell can hold over the wire: NULL, INTEGER,
TEXT, BLOB.  (Floating-point REAL values are outside the model; none of
the properties below concerns them.) -/
inductive SQLiteValue where
  | null
  | int (i : Int)
  | text (t : String)
  | blob (b : List Nat)
deriving DecidableEq

/-- A result row: the ordered sequence of column values produced by the
query's projection. -/
abbrev Row := List SQLiteValue

/-- A JSON value appearing in the response dictionaries of `validate`. -/
inductive JsonVal where
  | jstr (s : String)
  | jrows (r : List Row)
deriving DecidableEq

/-- The response dictionary returned by `validate`, as the ordered list of
its key/value pairs. -/
abbrev Resp := List (String × JsonVal)

/-- `return \x7b"verdict": "ok", "rows": rows\x7d` -/
def okResp (rows : List Row) : Resp :=
  [("verdict", JsonVal.jstr ("ok")), ("rows", JsonVal.jrows rows)]

/-- `return \x7b"verdict": "error", "message": m\x7d` -/
def errResp (m : String) : Resp :=
  [("verdict", JsonVal.jstr ("error")), ("message", JsonVal.jstr m)]

/-- Outcome of calling a Python function: return normally, raise an
exception (carrying `str(e)`), or never return. -/
inductive PyResult (α : Type) where
  | ok (a : α)
  | exn (m : String)
  | hang
deriving DecidableEq

/-- Outcome of one call of the `validate` endpoint as observed by the
caller: a returned response dictionary, an exception escaping `validate`
unhandled, or no return at all. -/
inductive Outcome where
  | returns (r : Resp)
  | raises (m : String)
  | hangs
deriving DecidableEq

/-- Engine calls performed by `validate`, in order, as recorded in the
call trace: reaching the `sqlite3.connect` line, obtaining the connection
(the sandbox instance now exists), `cur.executescript`, `cur.execute`,
`cur.fetchmany`, and `conn.close()`. -/
inductive Event where
  | connectCall
  | connectOk
  | seedCall
  | executeCall
  | fetchCall
  | closeCall
deriving DecidableEq

/-- The request body: `payload["sql"]` and `payload["seed_sql"]`, both
Python strings (`payload.get(key, "")` makes both total). -/
structure Payload where
  sql : List Char
  seed_sql : List Char

/-- The sqlite3 engine as seen through the narrow interface `validate`
uses.  `DB` is the state of one in-memory database; `Cursor` is the state
of a cursor holding an executed statement; `rowsOf` is the full result
sequence that cursor ranges over (used only to state properties about
truncation, never by `validate` itself); `fetchmany` is the engine's
fetch operation.  `connect` models `sqlite3.connect(":memory:", timeout=1)`
followed by `conn.cursor()`: a fresh, empty, private database. -/
structure Engine where
  DB : Type
  Cursor : Type
  connect : PyResult DB
  executescript : DB → List Char → PyResult DB
  execute : DB → List Char → PyResult Cursor
  rowsOf : Cursor → List Row
  fetchmany : Cursor → Nat → PyResult (List Row)

/-- The busy/lock-wait timeout passed to `sqlite3.connect` (seconds).
Per the sqlite3 module documentation this bounds how long the connection
waits on a locked database before raising; it is not an execution
deadline, and a private `:memory:` database is never locked by anyone
else. -/
def busyTimeoutSeconds : Nat := 1

/-- Shallow embedding of the endpoint body of `validator.py`, together
with the trace of engine calls it performs.  Control flow transcribed
from the source: strip, strip one trailing terminator, denylist check
(short-circuit return), connect (outside the `try` block), then
`try: executescript; execute; fetchmany(200); return ok`
`except Exception as e: return error str(e)` `finally: conn.close()`.
On a `hang` of an engine call the recorded trace is the list of events
that happened before the call that never returns. -/
def validate (E : Engine) (p : Payload) : Outcome × List Event :=
  if hasForbidden (preprocess p.sql) then
    (Outcome.returns (errResp ("forbidden keywords")), [])
  else
    match E.connect with
    | .hang => (Outcome.hangs, [.connectCall])
    | .exn m => (Outcome.raises m, [.connectCall])
    | .ok db =>
      match E.executescript db p.seed_sql with
      | .hang => (Outcome.hangs, [.connectCall, .connectOk, .seedCall])
      | .exn m =>
        (Outcome.returns (errResp m),
         [.connectCall, .connectOk, .seedCall, .closeCall])
      | .ok db1 =>
        match E.execute db1 (preprocess p.sql) with
        | .hang =>
          (Outcome.hangs,
           [.connectCall, .connectOk, .seedCall, .executeCall])
        | .exn m =>
          (Outcome.returns (errResp m),
           [.connectCall, .connectOk, .seedCall, .executeCall, .closeCall])
        | .ok cur =>
          match E.fetchmany cur 200 with
          | .hang =>
            (Outcome.hangs,
             [.connectCall, .connectOk, .seedCall, .executeCall, .fetchCall])
          | .exn m =>
            (Outcome.returns (errResp m),
             [.connectCall, .connectOk, .seedCall, .executeCall, .fetchCall,
              .closeCall])
          | .ok rows =>
            (Outcome.returns (okResp rows),
             [.connectCall, .connectOk, .seedCall, .executeCall, .fetchCall,
              .closeCall])

/-- Outcome of a Python call in a model that also threads an explicit
process-wide world `W` (everything a call could in principle share with
other calls): normal return with the new world, exception with the world
at the moment of raising, or no return. -/
inductive StResult (W : Type) (α : Type) where
  | ok (w : W) (a : α)
  | exn (w : W) (m : String)
  | hang

/-- The engine interface of `validate` with an explicit process-wide
world threaded through every operation, used to state the cross-call
isolation property: in this model an operation could, in principle, read
or write state shared between requests. -/
structure StEngine (W DB Cursor : Type) where
  connect : W → StResult W DB
  executescript : W → DB → List Char → StResult W DB
  execute : W → DB → List Char → StResult W Cursor
  fetchmany : W → Cursor → Nat → StResult W (List Row)
  close : W → DB → W

/-- The same endpoint body as `validate`, transcribed over a
world-threading engine (trace omitted; the returned world is the world
after the call, so later calls start from it). -/
def validateSt {W DB Cursor : Type} (E : StEngine W DB Cursor) (w : W)
    (p : Payload) : Outcome × W :=
  if hasForbidden (preprocess p.sql) then
    (Outcome.returns (errResp ("forbidden keywords")), w)
  else
    match E.connect w with
    | .hang => (Outcome.hangs, w)
    | .exn w1 m => (Outcome.raises m, w1)
    | .ok w1 db =>
      match E.executescript w1 db p.seed_sql with
      | .hang => (Outcome.hangs, w1)
      | .exn w2 m => (Outcome.returns (errResp m), E.close w2 db)
      | .ok w2 db1 =>
        match E.execute w2 db1 (preprocess p.sql) with
        | .hang => (Outcome.hangs, w2)
        | .exn w3 m => (Outcome.returns (errResp m), E.close w3 db)
        | .ok w3 cur =>
          match E.fetchmany w3 cur 200 with
          | .hang => (Outcome.hangs, w3)
          | .exn w4 m => (Outcome.returns (errResp m), E.close w4 db)
          | .ok w4 rows => (Outcome.returns (okResp rows), E.close w4 db)

/-- A world-free bundle of engine operations: what sqlite's per-connection
`:memory:` semantics provides, where every call starts from the same
fresh empty database and nothing depends on, or leaks into, shared
process state. -/
structure PureOps (DB Cursor : Type) where
  connect : PyResult DB
  executescript : DB → List Char → PyResult DB
  execute : DB → List Char → PyResult Cursor
  fetchmany : Cursor → Nat → PyResult (List Row)

/-- Embed a world-free result into the world-threading model: the world
passes through untouched. -/
def liftR {W α : Type} (w : W) : PyResult α → StResult W α
  | .ok a => .ok w a
  | .exn m => .exn w m
  | .hang => .hang

/-- The world-threading engine induced by world-free operations: no
operation reads or writes the shared world, and `close` releases only
per-call resources. -/
def liftOps (W : Type) {DB Cursor : Type} (P : PureOps DB Cursor) :
    StEngine W DB Cursor where
  connect := fun w => liftR w P.connect
  executescript := fun w db s => liftR w (P.executescript db s)
  execute := fun w db s => liftR w (P.execute db s)
  fetchmany := fun w c n => liftR w (P.fetchmany c n)
  close := fun w _ => w

/-- The isolation discipline the source obtains from
`sqlite3.connect(":memory:")` on every call: the engine behaves as some
world-free bundle of operations — each call gets the same fresh empty
private database and no operation observes or mutates cross-call state. -/
def MemoryBacked {W DB Cursor : Type} (E : StEngine W DB Cursor) : Prop :=
  ∃ P : PureOps DB Cursor, E = liftOps W P

/- Concrete engines and payloads used as witnesses and counterexamples. -/

/-- An engine whose connection acquisition raises, as sqlite3 does under
resource exhaustion (`unable to open database`). -/
def failConnectEngine : Engine where
  DB := Unit
  Cursor := Unit
  connect := .exn ("unable to open database")
  executescript := fun _ _ => .ok ()
  execute := fun _ _ => .ok ()
  rowsOf := fun _ => []
  fetchmany := fun _ _ => .ok []

/-- A deliberately blocking query text: an aggregate over an unbounded
recursive CTE.  sqlite evaluates recursive CTEs lazily, so a bare
`SELECT x FROM c` streams rows and returns at once — but an aggregate
must exhaust the infinite recursion before it can produce its first row,
so `cursor.execute` on this text never returns control.  It contains no
denylisted keyword, so it is admitted. -/
def longQuery : List Char :=
  ("WITH RECURSIVE c(x) AS (SELECT 1 UNION ALL SELECT x+1 FROM c) SELECT count(x) FROM c").toList

/-- An engine stuck inside query execution: executing the blocking
aggregate `longQuery`, with no progress handler or interrupt installed,
never returns control; any other statement executes normally. -/
def hangEngine : Engine where
  DB := Unit
  Cursor := Unit
  connect := .ok ()
  executescript := fun _ _ => .ok ()
  execute := fun _ q => if q = longQuery then .hang else .ok ()
  rowsOf := fun _ => []
  fetchmany := fun _ _ => .ok []

/-- The 500 single-column rows (0), (1), ..., (499). -/
def rows500 : List Row :=
  (List.range 500).map (fun i => [SQLiteValue.int (Int.ofNat i)])

/-- An engine behaving as sqlite does on the seed and query of `pBig`:
the seed fills table `big` with 0..499, so the admitted query's full
result is `rows500`; `fetchmany n` returns the first `n` of them, as
sqlite's cursor does. -/
def bigEngine : Engine where
  DB := Unit
  Cursor := Unit
  connect := .ok ()
  executescript := fun _ _ => .ok ()
  execute := fun _ _ => .ok ()
  rowsOf := fun _ => rows500
  fetchmany := fun _ n => .ok (rows500.take n)

/-- The rows (1), (2), (3) of the concrete scenario. -/
def seedRows : List Row :=
  [[SQLiteValue.int 1], [SQLiteValue.int 2], [SQLiteValue.int 3]]

/-- An engine behaving as sqlite does on the concrete scenario seed and
query: three rows (1), (2), (3) in order. -/
def scenarioEngine : Engine where
  DB := Unit
  Cursor := Unit
  connect := .ok ()
  executescript := fun _ _ => .ok ()
  execute := fun _ _ => .ok ()
  rowsOf := fun _ => seedRows
  fetchmany := fun _ n => .ok (seedRows.take n)

/-- An engine behaving as CPython's sqlite3 binding does on the single
statement `SELECT 1;`: `cursor.execute` accepts exactly one statement and
permits a single trailing terminator, yielding the row (1); any other
text raises. -/
def sqliteSelEngine : Engine where
  DB := Unit
  Cursor := Unit
  connect := .ok ()
  executescript := fun _ _ => .ok ()
  execute := fun _ q =>
    if q = ("SELECT 1;").toList then .ok () else .exn ("malformed query")
  rowsOf := fun _ => [[SQLiteValue.int 1]]
  fetchmany := fun _ n => .ok ([[SQLiteValue.int 1]].take n)

/-- World-free operations that always succeed with an empty result. -/
def trivOps : PureOps Unit Unit where
  connect := .ok ()
  executescript := fun _ _ => .ok ()
  execute := fun _ _ => .ok ()
  fetchmany := fun _ _ => .ok []

/-- A harmless request. -/
def pBasic : Payload := ⟨("SELECT 1").toList, []⟩

/-- A request whose seed populates table `big` with the 500 values
0..499 (a bounded recursive CTE feeding an INSERT — the seed batch is
never run through the admission filter, and `executescript` accepts it)
and whose query selects them all in ascending order, so the query's full
result has 500 rows. -/
def pBig : Payload :=
  ⟨("SELECT x FROM big ORDER BY x").toList,
   ("CREATE TABLE big(x INT); WITH RECURSIVE n(x) AS (SELECT 0 UNION ALL SELECT x+1 FROM n WHERE x < 499) INSERT INTO big SELECT x FROM n;").toList⟩

/-- A request ending in two statement terminators. -/
def pSemi : Payload := ⟨("SELECT 1;;").toList, []⟩

/-- The blocking request: the aggregate over an unbounded recursive
CTE as its query, with an empty seed. -/
def pLong : Payload := ⟨longQuery, []⟩

/-- The concrete scenario of the specification. -/
def p9 : Payload :=
  ⟨("SELECT x FROM t ORDER BY x;").toList,
   ("CREATE TABLE t(x INT); INSERT INTO t VALUES (1),(2),(3);").toList⟩

/-- `str.strip()` does not remove a trailing non-whitespace character:
stripping `l ++ [c]` with `c` non-whitespace strips only on the left. -/
theorem pyStrip_concat (l : List Char) (c : Char) (hc : isPyWs c = false) :
    pyStrip (l ++ [c]) = l.dropWhile isPyWs ++ [c] := by
  unfold pyStrip
  rw [List.dropWhile_append]
  by_cases h : (l.dropWhile isPyWs).isEmpty
  · simp [h, List.dropWhile_cons, hc, List.isEmpty_iff.mp h]
  · simp [h, List.dropWhile_cons, hc]

/-- Stripping whitespace preserves a trailing statement terminator. -/
theorem endsSemi_pyStrip (l : List Char) (h : endsSemi l = true) :
    endsSemi (pyStrip l) = true := by
  have h2 : l.getLast? = some ';' := by simpa [endsSemi] using h
  obtain ⟨l2, rfl⟩ := List.getLast?_eq_some_iff.mp h2
  rw [pyStrip_concat l2 ';' (by decide)]
  simp [endsSemi, List.getLast?_concat]

/-- A request whose preprocessed text matches the denylist is answered
with the fixed error verdict and an empty engine-call trace. -/
theorem validate_rejects (E : Engine) (p : Payload)
    (hf : hasForbidden (preprocess p.sql) = true) :
    validate E p = (Outcome.returns (errResp ("forbidden keywords")), []) := by
  simp [validate, hf]

/-- A fully successful run returns the Ok verdict with the fetched rows
and the full engine-call trace. -/
theorem validate_run_ok (E : Engine) (p : Payload) (db db1 : E.DB)
    (cur : E.Cursor) (rows : List Row)
    (hf : hasForbidden (preprocess p.sql) = false)
    (h1 : E.connect = PyResult.ok db)
    (h2 : E.executescript db p.seed_sql = PyResult.ok db1)
    (h3 : E.execute db1 (preprocess p.sql) = PyResult.ok cur)
    (h4 : E.fetchmany cur 200 = PyResult.ok rows) :
    validate E p =
      (Outcome.returns (okResp rows),
       [Event.connectCall, Event.connectOk, Event.seedCall, Event.executeCall,
        Event.fetchCall, Event.closeCall]) := by
  simp [validate, hf, h1, h2, h3, h4]

/-- Claim C1: whenever the query text, after trimming whitespace and
stripping a single trailing terminator, contains a denylisted keyword in
any letter case, `validate` returns the error verdict with the fixed
message "forbidden keywords", and no engine call is made at all: the
sandbox database instance is never created for that request. -/
theorem forbidden_rejected_before_sandbox (E : Engine) (p : Payload)
    (hf : hasForbidden (preprocess p.sql) = true) :
    validate E p = (Outcome.returns (errResp ("forbidden keywords")), []) := by
  simp [validate, hf]

/-- Witness for C1: the request `DROP TABLE t;` is rejected with the
fixed message and an empty engine-call trace, even on an engine whose
acquisition would fail. -/
theorem forbidden_rejected_before_sandbox_witness :
    validate failConnectEngine ⟨("DROP TABLE t;").toList, []⟩ =
      (Outcome.returns (errResp ("forbidden keywords")), []) :=
  forbidden_rejected_before_sandbox failConnectEngine
    ⟨("DROP TABLE t;").toList, []⟩ (by decide)

/-- Claim C2: once the sandbox connection has been obtained
(`connectOk` is in the call trace), every terminating run of `validate`
— normal verdicts as well as error verdicts from seed failure, execution
failure, or row-capture failure — performs `conn.close()` before
returning: `closeCall` is in the trace. -/
theorem sandbox_closed_on_return (E : Engine) (p : Payload)
    (hc : Event.connectOk ∈ (validate E p).2)
    (hh : (validate E p).1 ≠ Outcome.hangs) :
    Event.closeCall ∈ (validate E p).2 := by
  by_cases hf : hasForbidden (preprocess p.sql) = true
  · simp [validate, hf] at hc
  · simp only [Bool.not_eq_true] at hf
    cases h1 : E.connect with
    | hang => simp [validate, hf, h1] at hc
    | exn m => simp [validate, hf, h1] at hc
    | ok db =>
      cases h2 : E.executescript db p.seed_sql with
      | hang => simp [validate, hf, h1, h2] at hh
      | exn m => simp [validate, hf, h1, h2]
      | ok db1 =>
        cases h3 : E.execute db1 (preprocess p.sql) with
        | hang => simp [validate, hf, h1, h2, h3] at hh
        | exn m => simp [validate, hf, h1, h2, h3]
        | ok cur =>
          cases h4 : E.fetchmany cur 200 with
          | hang => simp [validate, hf, h1, h2, h3, h4] at hh
          | exn m => simp [validate, hf, h1, h2, h3, h4]
          | ok rows => simp [validate, hf, h1, h2, h3, h4]

/-- Witness for C2: on the concrete scenario run the connection is
acquired, the call returns, and `conn.close()` appears in the trace. -/
theorem sandbox_closed_on_return_witness :
    Event.closeCall ∈ (validate scenarioEngine p9).2 :=
  sandbox_closed_on_return scenarioEngine p9 (by decide) (by decide)

/-- Counterexample to claim C3 as stated: when connection acquisition
fails (`sqlite3.connect` raising, e.g. under resource exhaustion), the
exception escapes `validate` unhandled — the caller observes a raised
exception, not an error verdict, because the `connect` call stands
outside the `try` block. -/
theorem connect_failure_escapes_cex :
    (validate failConnectEngine pBasic).1 =
        Outcome.raises ("unable to open database")
    ∧ ∀ r : Resp,
        Outcome.raises ("unable to open database") ≠ Outcome.returns r := by
  refine ⟨by decide, ?_⟩
  intro r h
  exact Outcome.noConfusion h

/-- Claim C3 (amended): faults in seeding, query execution and row
capture are all caught inside `validate` and converted into the uniform
error-verdict shape — an exception `m` raised by `executescript`,
`execute` or `fetchmany` yields the returned dictionary
`errResp m` = `\x7b"verdict": "error", "message": m\x7d` — and the only
way `validate` can let an exception escape is a failure of the
connection-acquisition step itself, which stands outside the `try`
block: if a run raises `m`, then `connect` raised `m`, and after a
successful acquisition no run raises. -/
theorem raises_only_from_connect_acquire :
    (∀ (E : Engine) (p : Payload) (m : String),
        (validate E p).1 = Outcome.raises m → E.connect = PyResult.exn m)
    ∧ (∀ (E : Engine) (p : Payload) (db : E.DB),
        E.connect = PyResult.ok db →
        ∀ m : String, (validate E p).1 ≠ Outcome.raises m)
    ∧ (∀ (E : Engine) (p : Payload) (db : E.DB) (m : String),
        hasForbidden (preprocess p.sql) = false →
        E.connect = PyResult.ok db →
        E.executescript db p.seed_sql = PyResult.exn m →
        (validate E p).1 = Outcome.returns (errResp m))
    ∧ (∀ (E : Engine) (p : Payload) (db db1 : E.DB) (m : String),
        hasForbidden (preprocess p.sql) = false →
        E.connect = PyResult.ok db →
        E.executescript db p.seed_sql = PyResult.ok db1 →
        E.execute db1 (preprocess p.sql) = PyResult.exn m →
        (validate E p).1 = Outcome.returns (errResp m))
    ∧ (∀ (E : Engine) (p : Payload) (db db1 : E.DB) (cur : E.Cursor)
          (m : String),
        hasForbidden (preprocess p.sql) = false →
        E.connect = PyResult.ok db →
        E.executescript db p.seed_sql = PyResult.ok db1 →
        E.execute db1 (preprocess p.sql) = PyResult.ok cur →
        E.fetchmany cur 200 = PyResult.exn m →
        (validate E p).1 = Outcome.returns (errResp m)) := by
  refine ⟨?_, ?_, ?_, ?_, ?_⟩
  · intro E p m h
    by_cases hf : hasForbidden (preprocess p.sql) = true
    · simp [validate, hf] at h
    · simp only [Bool.not_eq_true] at hf
      cases h1 : E.connect with
      | hang => simp [validate, hf, h1] at h
      | exn m2 =>
        simp only [validate, hf, h1, Bool.false_eq_true, if_false] at h
        exact congrArg PyResult.exn (Outcome.raises.inj h)
      | ok db =>
        cases h2 : E.executescript db p.seed_sql with
        | hang => simp [validate, hf, h1, h2] at h
        | exn m2 => simp [validate, hf, h1, h2] at h
        | ok db1 =>
          cases h3 : E.execute db1 (preprocess p.sql) with
          | hang => simp [validate, hf, h1, h2, h3] at h
          | exn m2 => simp [validate, hf, h1, h2, h3] at h
          | ok cur =>
            cases h4 : E.fetchmany cur 200 with
            | hang => simp [validate, hf, h1, h2, h3, h4] at h
            | exn m2 => simp [validate, hf, h1, h2, h3, h4] at h
            | ok rows => simp [validate, hf, h1, h2, h3, h4] at h
  · intro E p db h1 m h
    by_cases hf : hasForbidden (preprocess p.sql) = true
    · simp [validate, hf] at h
    · simp only [Bool.not_eq_true] at hf
      cases h2 : E.executescript db p.seed_sql with
      | hang => simp [validate, hf, h1, h2] at h
      | exn m2 => simp [validate, hf, h1, h2] at h
      | ok db1 =>
        cases h3 : E.execute db1 (preprocess p.sql) with
        | hang => simp [validate, hf, h1, h2, h3] at h
        | exn m2 => simp [validate, hf, h1, h2, h3] at h
        | ok cur =>
          cases h4 : E.fetchmany cur 200 with
          | hang => simp [validate, hf, h1, h2, h3, h4] at h
          | exn m2 => simp [validate, hf, h1, h2, h3, h4] at h
          | ok rows => simp [validate, hf, h1, h2, h3, h4] at h
  · intro E p db m hf h1 h2
    simp [validate, hf, h1, h2]
  · intro E p db db1 m hf h1 h2 h3
    simp [validate, hf, h1, h2, h3]
  · intro E p db db1 cur m hf h1 h2 h3 h4
    simp [validate, hf, h1, h2, h3, h4]

/-- Witness for the amended C3: on the engine whose acquisition raises,
the raised message is exactly the message `connect` raised. -/
theorem raises_only_from_connect_acquire_witness :
    failConnectEngine.connect = PyResult.exn ("unable to open database") :=
  raises_only_from_connect_acquire.1 failConnectEngine pBasic
    ("unable to open database") (by decide)

/-- Claim C4 (the code at the failing input): `validate` installs no
execution deadline — the `timeout=1` argument of `sqlite3.connect` is the
busy/lock-wait timeout, meaningless for a private in-memory database —
so on an engine stuck in the admitted blocking query (an aggregate over
an unbounded recursive CTE, which sqlite must evaluate in full before
the first result row exists) `validate` itself never returns: no timeout
error verdict is produced, and the connection is not even released on
this path. -/
theorem no_execution_timeout_hang :
    (validate hangEngine pLong).1 = Outcome.hangs
    ∧ Event.closeCall ∉ (validate hangEngine pLong).2 :=
  ⟨by decide, by decide⟩

set_option maxRecDepth 4000 in
/-- Counterexample to claim C5 as stated: on a run whose full result has
500 rows — more than the 200-row cap — the Ok verdict returned by
`validate` carries no `rowCountCapped` key at all (the response
dictionary in the source is literally `\x7b"verdict": "ok", "rows": rows\x7d`),
so no truncation flag is set to true. -/
theorem no_truncation_flag_cex :
    (validate bigEngine pBig).1 = Outcome.returns (okResp (rows500.take 200))
    ∧ 200 < rows500.length
    ∧ List.lookup ("rowCountCapped") (okResp (rows500.take 200)) = none :=
  ⟨by decide, by simp [rows500], rfl⟩

/-- Claim C5 (amended): the Ok verdict carries no truncation flag: every
successful run returns a dictionary whose keys are exactly `verdict` and
`rows`, with the first 200 rows of the full result and no
`rowCountCapped` entry — truncation beyond the cap is silent. -/
theorem ok_verdict_shape_no_flag (E : Engine) (p : Payload)
    (db db1 : E.DB) (cur : E.Cursor)
    (hf : hasForbidden (preprocess p.sql) = false)
    (h1 : E.connect = PyResult.ok db)
    (h2 : E.executescript db p.seed_sql = PyResult.ok db1)
    (h3 : E.execute db1 (preprocess p.sql) = PyResult.ok cur)
    (h4 : E.fetchmany cur 200 = PyResult.ok ((E.rowsOf cur).take 200)) :
    (validate E p).1 = Outcome.returns (okResp ((E.rowsOf cur).take 200))
    ∧ (okResp ((E.rowsOf cur).take 200)).map Prod.fst = [("verdict"), ("rows")]
    ∧ List.lookup ("rowCountCapped") (okResp ((E.rowsOf cur).take 200)) = none :=
  ⟨by simp [validate, hf, h1, h2, h3, h4], rfl, rfl⟩

set_option maxRecDepth 4000 in
/-- Witness for the amended C5: the 500-row run returns Ok with the first
200 rows, keys exactly `verdict` and `rows`, and no truncation flag. -/
theorem ok_verdict_shape_no_flag_witness :
    (validate bigEngine pBig).1 = Outcome.returns (okResp (rows500.take 200))
    ∧ (okResp (rows500.take 200)).map Prod.fst = [("verdict"), ("rows")]
    ∧ List.lookup ("rowCountCapped") (okResp (rows500.take 200)) = none :=
  ok_verdict_shape_no_flag bigEngine pBig () () () (by decide) rfl rfl rfl rfl

/-- Claim C6: every successful run returns `fetchmany 200` of the
cursor's full result: at most 200 rows, the first 200 when the full
result is longer, and the whole result in order when it fits within the
cap. -/
theorem row_cap_two_hundred (E : Engine) (p : Payload)
    (db db1 : E.DB) (cur : E.Cursor)
    (hf : hasForbidden (preprocess p.sql) = false)
    (h1 : E.connect = PyResult.ok db)
    (h2 : E.executescript db p.seed_sql = PyResult.ok db1)
    (h3 : E.execute db1 (preprocess p.sql) = PyResult.ok cur)
    (h4 : E.fetchmany cur 200 = PyResult.ok ((E.rowsOf cur).take 200)) :
    (validate E p).1 = Outcome.returns (okResp ((E.rowsOf cur).take 200))
    ∧ ((E.rowsOf cur).take 200).length ≤ 200
    ∧ ((E.rowsOf cur).length ≤ 200 → (E.rowsOf cur).take 200 = E.rowsOf cur) :=
  ⟨by simp [validate, hf, h1, h2, h3, h4],
   List.length_take_le 200 (E.rowsOf cur),
   fun h => List.take_of_length_le h⟩

set_option maxRecDepth 4000 in
/-- Witness for C6: on the 500-row engine the verdict holds the first 200
rows; the cap bound holds, and the within-cap case holds vacuously. -/
theorem row_cap_two_hundred_witness :
    (validate bigEngine pBig).1 = Outcome.returns (okResp (rows500.take 200))
    ∧ (rows500.take 200).length ≤ 200
    ∧ (rows500.length ≤ 200 → rows500.take 200 = rows500) :=
  row_cap_two_hundred bigEngine pBig () () () (by decide) rfl rfl rfl rfl

/-- Counterexample to claim C7 as stated: the request `SELECT 1;;`,
ending in two statement terminators, is neither rejected by the filter
nor an engine-level error: `validate` strips one terminator, the engine
receives `SELECT 1;` — a single statement with a single trailing
terminator, which CPython's sqlite3 binding accepts — and the run
returns the Ok verdict with row (1). -/
theorem double_terminator_executes_cex :
    (validate sqliteSelEngine pSemi).1 =
        Outcome.returns (okResp [[SQLiteValue.int 1]])
    ∧ hasForbidden (preprocess pSemi.sql) = false :=
  ⟨by decide, by decide⟩

/-- Claim C7 (amended): exactly one trailing terminator is stripped,
never two — when the trimmed query ends in two terminators, the admitted
text still ends in one — and concretely `SELECT 1;;` is admitted as
`SELECT 1;`, whose disposition is left to the engine (which accepts a
single trailing terminator). -/
theorem single_terminator_strip :
    (∀ l : List Char, endsSemi (pyStrip l) = true →
        endsSemi ((pyStrip l).dropLast) = true →
        endsSemi (preprocess l) = true)
    ∧ preprocess (("SELECT 1;;").toList) = ("SELECT 1;").toList := by
  refine ⟨?_, by decide⟩
  intro l h1 h2
  simp only [preprocess, h1, if_true]
  exact endsSemi_pyStrip _ h2

/-- Witness for the amended C7: the admitted text of `SELECT 1;;` still
ends in a terminator — only one was stripped. -/
theorem single_terminator_strip_witness :
    endsSemi (preprocess (("SELECT 1;;").toList)) = true :=
  single_terminator_strip.1 (("SELECT 1;;").toList) (by decide) (by decide)

/-- Claim C8: `validate` is deterministic and free of cross-call state
leakage: under the memory-backed isolation discipline the source obtains
from `sqlite3.connect(":memory:")` on every call, the outcome of a call
is independent of the shared process world — so any two invocations with
identical `(sql, seed_sql)` inputs produce structurally identical
verdicts — and the call leaves the shared world exactly as it found it,
so no call can observe another's sandbox. -/
theorem isolated_calls_deterministic {W DB Cursor : Type}
    (E : StEngine W DB Cursor) (h : MemoryBacked E) (w w2 : W) (p : Payload) :
    (validateSt E w p).1 = (validateSt E w2 p).1
    ∧ (validateSt E w p).2 = w := by
  obtain ⟨P, rfl⟩ := h
  by_cases hf : hasForbidden (preprocess p.sql) = true
  · simp [validateSt, hf]
  · simp only [Bool.not_eq_true] at hf
    cases h1 : P.connect with
    | hang => simp [validateSt, hf, liftOps, liftR, h1]
    | exn m => simp [validateSt, hf, liftOps, liftR, h1]
    | ok db =>
      cases h2 : P.executescript db p.seed_sql with
      | hang => simp [validateSt, hf, liftOps, liftR, h1, h2]
      | exn m => simp [validateSt, hf, liftOps, liftR, h1, h2]
      | ok db1 =>
        cases h3 : P.execute db1 (preprocess p.sql) with
        | hang => simp [validateSt, hf, liftOps, liftR, h1, h2, h3]
        | exn m => simp [validateSt, hf, liftOps, liftR, h1, h2, h3]
        | ok cur =>
          cases h4 : P.fetchmany cur 200 with
          | hang => simp [validateSt, hf, liftOps, liftR, h1, h2, h3, h4]
          | exn m => simp [validateSt, hf, liftOps, liftR, h1, h2, h3, h4]
          | ok rows => simp [validateSt, hf, liftOps, liftR, h1, h2, h3, h4]

/-- Witness for C8: two runs of the same request from different worlds
agree, and the first run preserves its world. -/
theorem isolated_calls_deterministic_witness :
    (validateSt (liftOps Nat trivOps) 0 pBasic).1 =
        (validateSt (liftOps Nat trivOps) 1 pBasic).1
    ∧ (validateSt (liftOps Nat trivOps) 0 pBasic).2 = 0 :=
  isolated_calls_deterministic (liftOps Nat trivOps) ⟨trivOps, rfl⟩ 0 1 pBasic

/-- Claim C9: on the concrete scenario — seed
`CREATE TABLE t(x INT); INSERT INTO t VALUES (1),(2),(3);`, query
`SELECT x FROM t ORDER BY x;` — the query is admitted (stripped of its
terminator), and provided the engine behaves as sqlite does on these
statements (seed applies, the query yields rows (1), (2), (3) in order),
`validate` returns the Ok verdict with rows [[1], [2], [3]]. -/
theorem concrete_scenario_ok (E : Engine) (db db1 : E.DB) (cur : E.Cursor)
    (h1 : E.connect = PyResult.ok db)
    (h2 : E.executescript db p9.seed_sql = PyResult.ok db1)
    (h3 : E.execute db1 (("SELECT x FROM t ORDER BY x").toList) = PyResult.ok cur)
    (h4 : E.fetchmany cur 200 = PyResult.ok seedRows) :
    (validate E p9).1 = Outcome.returns (okResp seedRows) := by
  have hp : preprocess p9.sql = ("SELECT x FROM t ORDER BY x").toList := by decide
  have h3b : E.execute db1 (preprocess p9.sql) = PyResult.ok cur := by
    rw [hp]
    exact h3
  have hv := validate_run_ok E p9 db db1 cur seedRows (by decide) h1 h2 h3b h4
  rw [hv]

/-- Witness for C9: on the engine modelling sqlite's behaviour for this
scenario the verdict is Ok with rows [[1], [2], [3]]. -/
theorem concrete_scenario_ok_witness :
    (validate scenarioEngine p9).1 = Outcome.returns (okResp seedRows) :=
  concrete_scenario_ok scenarioEngine () () () rfl rfl rfl rfl

/-- Claim C10: the admission check is raw case-insensitive substring
search with no word boundaries: the harmless query
`SELECT deleted_at, updated_on, backdrop FROM t` — whose only matches
are inside the identifiers `deleted_at`, `updated_on` and `backdrop` —
is rejected with "forbidden keywords" on every engine, without any
engine call. -/
theorem substring_overblocking :
    ∀ (E : Engine) (seed : List Char),
      validate E ⟨("SELECT deleted_at, updated_on, backdrop FROM t").toList, seed⟩ =
        (Outcome.returns (errResp ("forbidden keywords")), []) := by
  intro E seed
  refine validate_rejects E
    ⟨("SELECT deleted_at, updated_on, backdrop FROM t").toList, seed⟩ ?_
  show hasForbidden
      (preprocess (("SELECT deleted_at, updated_on, backdrop FROM t").toList)) = true
  decide
